import Mathlib

/-!
Verification of the description-synthesis logic of the SeeWithYou app,
a shallow embedding of the code in src/app/(tabs)/index.tsx.

Numbers are modelled over the rationals; every concrete constant in the
code is a short decimal, and every comparison the claims exercise is
strict and far from any float-rounding boundary, so the rational model
agrees with the JavaScript number semantics on all inputs used here.
JavaScript string operations (includes, toLowerCase on the ASCII labels
involved) are modelled by executable character-list functions.
-/

namespace SeeWithYou

/-- A Rekognition bounding box; all four fields are optional in the AWS
response type, and the code reads them as (box.Width || 0) etc. -/
structure BoundingBox where
  Width : Option ℚ
  Height : Option ℚ
  Left : Option ℚ
  Top : Option ℚ

/-- One detected instance of a label; its BoundingBox field is optional. -/
structure RekInstance where
  BoundingBox : Option BoundingBox

/-- A label returned by DetectLabels: optional Name, optional Confidence,
optional list of Instances, as in the AWS SDK types consumed by the code. -/
structure Label where
  Name : Option String
  Confidence : Option ℚ
  Instances : Option (List RekInstance)

/-- Pat is a leading segment of the character list s. -/
def charsStartWith : List Char → List Char → Bool
  | [], _ => true
  | _ :: _, [] => false
  | p :: ps, c :: cs => p == c && charsStartWith ps cs

/-- Pat occurs somewhere inside the character list. -/
def charsContain (pat : List Char) : List Char → Bool
  | [] => pat.isEmpty
  | c :: cs => charsStartWith pat (c :: cs) || charsContain pat cs

/-- JavaScript String.prototype.includes. -/
def jsIncludes (s pat : String) : Bool :=
  charsContain pat.data s.data

/-- JavaScript toLowerCase restricted to basic latin letters, which covers
every label name and denylist entry the code compares. -/
def strLower (s : String) : String :=
  String.mk (s.data.map Char.toLower)

/-- The excludeCategories denylist, lines 149 to 154 of the source. -/
def excludeCategories : List String :=
  ["interior design", "architecture", "room", "indoors", "outdoors",
   "building", "floor", "wall", "ceiling", "flooring", "hardwood",
   "wood", "lighting", "urban", "city", "nature", "scenery", "landscape",
   "housing", "shelter", "home decor", "art", "modern art", "abstract"]

/-- The name used while filtering: label.Name lowercased, defaulting to the
empty string (line 157). -/
def filterName (l : Label) : String :=
  match l.Name with
  | some s => strLower s
  | none => ""

/-- The filter predicate of lines 156 to 164: drop denylisted names, keep
only labels with a nonempty Instances array. -/
def keepLabel (l : Label) : Bool :=
  let name := filterName l
  if excludeCategories.any (fun cat => jsIncludes name cat) then
    false
  else
    match l.Instances with
    | some is => decide (0 < is.length)
    | none => false

/-- physicalObjects, line 156: allLabels.filter of the predicate above. -/
def physicalObjects (allLabels : List Label) : List Label :=
  allLabels.filter keepLabel

/-- topObjects, line 175: physicalObjects.slice(0, 3). -/
def topObjects (allLabels : List Label) : List Label :=
  (physicalObjects allLabels).take 3

/-- JavaScript (x || 0) on an optional number. -/
def jsNumOr0 (x : Option ℚ) : ℚ :=
  match x with
  | some v => v
  | none => 0

/-- The size-in-frame distance buckets, lines 200 to 210. -/
def estimateDistance (boxArea : ℚ) : String :=
  if boxArea > 3/10 then "2 to 3 feet"
  else if boxArea > 15/100 then "4 to 6 feet"
  else if boxArea > 8/100 then "8 to 10 feet"
  else if boxArea > 4/100 then "12 to 15 feet"
  else "more than 15 feet"

/-- Horizontal direction from the box center x, lines 218 to 225. -/
def horizontalDir (centerX : ℚ) : String :=
  if centerX < 3/10 then "on your left"
  else if centerX > 7/10 then "on your right"
  else "in front of you"

/-- Vertical direction from the box center y, lines 228 to 233; the empty
string plays the role of the unset JavaScript variable. -/
def verticalDir (centerY : ℚ) : String :=
  if centerY < 3/10 then "above"
  else if centerY > 7/10 then "below"
  else ""

/-- Combination of the two direction parts, lines 236 to 242. -/
def combineDirs (vertical horizontal : String) : String :=
  if vertical != "" && horizontal != "in front of you" then
    vertical ++ " and " ++ horizontal
  else if vertical != "" then
    vertical ++ " " ++ horizontal
  else
    horizontal

/-- The per-label objectDistance and direction strings computed in lines
193 to 244: both stay empty unless the first instance has a bounding box. -/
def objDistanceAndDirection (l : Label) : String × String :=
  match l.Instances with
  | some (inst :: _) =>
    match inst.BoundingBox with
    | some box =>
      let boxArea := jsNumOr0 box.Width * jsNumOr0 box.Height
      let objectDistance := estimateDistance boxArea
      let centerX := jsNumOr0 box.Left + jsNumOr0 box.Width / 2
      let centerY := jsNumOr0 box.Top + jsNumOr0 box.Height / 2
      let direction := combineDirs (verticalDir centerY) (horizontalDir centerX)
      (objectDistance, direction)
    | none => ("", "")
  | _ => ("", "")

/-- The spoken name, line 187: label.Name lowercased with fallback. -/
def narrationName (l : Label) : String :=
  match l.Name with
  | some s => if strLower s == "" then "object" else strLower s
  | none => "object"

/-- JavaScript truthiness of the realDistance variable: null and 0 are
falsy. The code tests (!realDistance) at line 252. -/
def jsTruthy (x : Option ℚ) : Bool :=
  match x with
  | some v => v != 0
  | none => false

/-- The text appended for one label at a given forEach index, lines 246
to 258. -/
def objectClause (realDistance : Option ℚ) (index : Nat) (l : Label) : String :=
  let dd := objDistanceAndDirection l
  (if index == 0 then "I see a " ++ narrationName l else ", a " ++ narrationName l)
    ++ (if dd.1 != "" && !jsTruthy realDistance then " about " ++ dd.1 ++ " away" else "")
    ++ (if dd.2 != "" then " " ++ dd.2 else "")

/-- JavaScript Math.round: round half toward positive infinity. -/
def jsRound (x : ℚ) : ℤ :=
  Int.floor (x + 1/2)

/-- JavaScript number formatting for k tenths, i.e. for the value of
Math.round(d * 10) / 10 at line 179. -/
def formatTenths (k : ℤ) : String :=
  let sign := if k < 0 then "-" else ""
  let a := k.natAbs
  if a % 10 == 0 then sign ++ toString (a / 10)
  else sign ++ toString (a / 10) ++ "." ++ toString (a % 10)

/-- The leading sentence, lines 178 to 183: the measured-distance sentence
when realDistance is non-null, otherwise the plain opener. -/
def leadingClause (realDistance : Option ℚ) : String :=
  match realDistance with
  | some d => "Objects are approximately " ++ formatTenths (jsRound (d * 10)) ++ " feet away. "
  | none => "Objects detected. "

/-- The fixed fallback sentence of line 264. -/
def fallbackText : String :=
  "No specific objects detected. Try pointing at a clear object like a person, chair, or bottle."

/-- The forEach loop of lines 186 to 259, visiting labels in order with an
increasing index starting at 0. -/
def clausesFrom (realDistance : Option ℚ) (index : Nat) : List Label → String
  | [] => ""
  | l :: ls => objectClause realDistance index l ++ clausesFrom realDistance (index + 1) ls

/-- The description built in lines 172 to 265 from the already filtered
label list and the optional measured distance. -/
def synthesize (physObjs : List Label) (realDistance : Option ℚ) : String :=
  if 0 < physObjs.length then
    leadingClause realDistance ++ clausesFrom realDistance 0 (physObjs.take 3) ++ "."
  else
    fallbackText

/-- The full label-list to description pipeline: filter, then synthesize. -/
def describeScene (allLabels : List Label) (realDistance : Option ℚ) : String :=
  synthesize (physicalObjects allLabels) realDistance

/-- The component state read or written by takePicture. -/
structure AppState where
  analyzing : Bool
  result : String
  hasLiDAR : Bool
  arSessionActive : Bool

/-- Outcome of CameraModule.takePicture: a photo, a user cancellation
(an error whose code is CANCELLED), or another capture error. -/
inductive CaptureOutcome where
  | ok (base64 : String)
  | cancelledErr
  | err (msg : String)

/-- Observable collaborator effects of one takePicture cycle. -/
inductive Event where
  | speak (text : String)
  | upload
  | analyze

/-- The generic catch branch of lines 277 to 281 followed by the finally
branch: error text on screen, spoken apology, busy flag cleared. -/
def errorExit (st : AppState) (evs : List Event) (msg : String) : AppState × List Event :=
  ({ st with result := "Analysis failed: " ++ msg, analyzing := false },
    evs ++ [Event.speak ("Analysis failed. Please try again.")])

/-- One takePicture cycle (lines 100 to 285) as a state transformer over
the collaborator outcomes, returning the final state and the emitted
effects in order. -/
def takePictureModel (st : AppState) (cameraAvailable : Bool) (capture : CaptureOutcome)
    (uploadRes : Except String Unit) (analysisRes : Except String (List Label))
    (sensor : Option ℚ) : AppState × List Event :=
  if st.analyzing || !cameraAvailable then (st, [])
  else
    let st1 := { st with analyzing := true }
    let evs0 := [Event.speak ("Opening camera")]
    match capture with
    | CaptureOutcome.cancelledErr =>
      ({ st1 with result := "", analyzing := false }, evs0)
    | CaptureOutcome.err m => errorExit st1 evs0 m
    | CaptureOutcome.ok base64 =>
      if base64 == "" then errorExit st1 evs0 ("No image data")
      else
        let st2 := { st1 with result := "Analyzing image..." }
        let evs1 := evs0 ++ [Event.speak ("Analyzing")]
        let evs2 := evs1 ++ [Event.upload]
        match uploadRes with
        | Except.error m => errorExit st2 evs2 m
        | Except.ok _ =>
          let evs3 := evs2 ++ [Event.analyze]
          match analysisRes with
          | Except.error m => errorExit st2 evs3 m
          | Except.ok labels =>
            let realDistance := if st.hasLiDAR then sensor else none
            let description := synthesize (physicalObjects labels) realDistance
            ({ st2 with result := description, analyzing := false },
              evs3 ++ [Event.speak description])

/-- The realDistance selection of lines 166 to 170 followed by synthesis:
the description as a function of the LiDAR flag, the sensor reading and
the labels. -/
def takePictureDescription (hasLiDAR : Bool) (sensorReading : Option ℚ) (allLabels : List Label) : String :=
  let realDistance := if hasLiDAR then sensorReading else none
  synthesize (physicalObjects allLabels) realDistance

/-- The same description as a function of the whole component state. -/
def describeFromState (st : AppState) (sensorReading : Option ℚ) (allLabels : List Label) : String :=
  takePictureDescription st.hasLiDAR sensorReading allLabels

/-- The chair box of the end-to-end scenario: left 0.1, top 0.4,
width 0.3, height 0.3. -/
def chairBox : BoundingBox :=
  { Width := some (3/10), Height := some (3/10), Left := some (1/10), Top := some (2/5) }

/-- The chair label of the end-to-end scenario. -/
def chairLabel : Label :=
  { Name := some ("chair"), Confidence := some 98,
    Instances := some [{ BoundingBox := some chairBox }] }

/-- A full-frame box for the interior design label. -/
def interiorBox : BoundingBox :=
  { Width := some 1, Height := some 1, Left := some 0, Top := some 0 }

/-- The interior design label of the end-to-end scenario, one instance. -/
def interiorLabel : Label :=
  { Name := some ("interior design"), Confidence := some 95,
    Instances := some [{ BoundingBox := some interiorBox }] }

/-- The input list of the end-to-end scenario. -/
def c1Input : List Label := [chairLabel, interiorLabel]

/-- A label whose single instance has no bounding box. -/
def noBoxLabel : Label :=
  { Name := some ("box"), Confidence := some 80,
    Instances := some [{ BoundingBox := none }] }

/-- Input exercising the measured-distance path. -/
def c2Input : List Label := [chairLabel, noBoxLabel]

/-- The claim-side direction estimator, written to follow the wording of
the specification (section 4.3) rather than the code, for comparison. -/
def specDirection (cx cy : ℚ) : String :=
  let horizontal :=
    if cx < 3/10 then "on your left"
    else if cx > 7/10 then "on your right"
    else "in front of you"
  let vertical :=
    if cy < 3/10 then some ("above")
    else if cy > 7/10 then some ("below")
    else none
  match vertical with
  | some v => if horizontal != "in front of you" then v ++ " and " ++ horizontal else v ++ " " ++ horizontal
  | none => horizontal

/-- The rank of a distance phrase, nearest first; used to state bucket
monotonicity. -/
def distRank (s : String) : Nat :=
  if s == "2 to 3 feet" then 0
  else if s == "4 to 6 feet" then 1
  else if s == "8 to 10 feet" then 2
  else if s == "12 to 15 feet" then 3
  else 4

/-- A per-label clause carrying only the name and direction parts, with no
distance segment; used to state measured-distance suppression. -/
def directionOnlyClause (index : Nat) (l : Label) : String :=
  (if index == 0 then "I see a " ++ narrationName l else ", a " ++ narrationName l)
    ++ (if (objDistanceAndDirection l).2 != "" then " " ++ (objDistanceAndDirection l).2 else "")

/-- The loop of clausesFrom with every distance segment removed. -/
def dirClausesFrom (index : Nat) : List Label → String
  | [] => ""
  | l :: ls => directionOnlyClause index l ++ dirClausesFrom (index + 1) ls

theorem keepLabel_chair : keepLabel chairLabel = true := by decide

theorem keepLabel_interior : keepLabel interiorLabel = false := by decide

theorem keepLabel_noBox : keepLabel noBoxLabel = true := by decide

theorem physicalObjects_c1 : physicalObjects c1Input = [chairLabel] := by
  simp [physicalObjects, c1Input, List.filter_cons, keepLabel_chair, keepLabel_interior]

theorem chair_dd : objDistanceAndDirection chairLabel = ("8 to 10 feet", "on your left") := by
  norm_num [objDistanceAndDirection, chairLabel, chairBox, jsNumOr0, estimateDistance,
    combineDirs, verticalDir, horizontalDir]

theorem c1_actual_output :
    describeScene c1Input none =
      "Objects detected. I see a chair about 8 to 10 feet away on your left." := by
  have hname : narrationName chairLabel = "chair" := by decide
  rw [describeScene, physicalObjects_c1, synthesize]
  rw [if_pos (by simp)]
  rw [show ([chairLabel].take 3) = [chairLabel] from rfl]
  rw [clausesFrom, clausesFrom, objectClause]
  rw [chair_dd, hname]
  decide

/-- C1 counterexample: on the two-object scenario with no measured
distance, the synthesized output is not the claimed sentence with the
4 to 6 feet bucket; the chair box area 0.09 falls in the greater-than-0.08
bucket of the code. -/
theorem C1_counterexample :
    describeScene c1Input none ≠
      "Objects detected. I see a chair about 4 to 6 feet away on your left." := by
  rw [c1_actual_output]
  decide

/-- C1 (amended): for the input [chair at left 0.1 top 0.4 width 0.3
height 0.3, interior design] with no measured distance, the filter drops
interior design and the output is exactly the sentence with the
8 to 10 feet bucket. -/
theorem C1_end_to_end :
    physicalObjects c1Input = [chairLabel] ∧
      describeScene c1Input none =
        "Objects detected. I see a chair about 8 to 10 feet away on your left." :=
  ⟨physicalObjects_c1, c1_actual_output⟩

theorem jsTruthy_zero : jsTruthy (some (0 : ℚ)) = false := by
  simp [jsTruthy]

theorem jsTruthy_pos (d : ℚ) (hd : d ≠ 0) : jsTruthy (some d) = true := by
  simp [jsTruthy, hd]

theorem narrationName_chair : narrationName chairLabel = "chair" := by decide

theorem leadingClause_zero :
    leadingClause (some 0) = "Objects are approximately 0 feet away. " := by
  rw [leadingClause]
  have h0 : jsRound ((0 : ℚ) * 10) = 0 := by norm_num [jsRound]
  rw [h0]
  decide

theorem chairClause_zero :
    objectClause (some 0) 0 chairLabel =
      "I see a chair about 8 to 10 feet away on your left" := by
  simp only [objectClause, chair_dd, narrationName_chair, jsTruthy_zero]
  decide

theorem noBoxClause_zero : objectClause (some 0) 1 noBoxLabel = ", a box" := by decide

theorem synthesize_c2_zero :
    synthesize c2Input (some 0) =
      "Objects are approximately 0 feet away. I see a chair about 8 to 10 feet away on your left, a box." := by
  rw [synthesize, if_pos (by simp [c2Input])]
  rw [show (c2Input.take 3) = [chairLabel, noBoxLabel] from rfl]
  simp only [clausesFrom]
  rw [chairClause_zero, noBoxClause_zero, leadingClause_zero]
  decide

/-- C2 counterexample: with the measured distance 0 provided, the output
still carries a per-object about-clause (the code tests JavaScript
truthiness, not null, at line 252); and with measured distance 1, an
object whose first instance has no bounding box gets no direction phrase. -/
theorem C2_counterexample :
    synthesize c2Input (some 0) =
      "Objects are approximately 0 feet away. I see a chair about 8 to 10 feet away on your left, a box." ∧
    jsIncludes (synthesize c2Input (some 0)) (" about ") = true ∧
    objectClause (some 1) 1 noBoxLabel = ", a box" := by
  refine ⟨synthesize_c2_zero, ?_, ?_⟩
  · rw [synthesize_c2_zero]
    decide
  · decide

theorem objectClause_measured (d : ℚ) (hd : d ≠ 0) (idx : Nat) (l : Label) :
    objectClause (some d) idx l = directionOnlyClause idx l := by
  simp [objectClause, directionOnlyClause, jsTruthy_pos d hd]

theorem clausesFrom_measured (d : ℚ) (hd : d ≠ 0) (idx : Nat) (ls : List Label) :
    clausesFrom (some d) idx ls = dirClausesFrom idx ls := by
  induction ls generalizing idx with
  | nil => rfl
  | cons a as ih => simp [clausesFrom, dirClausesFrom, objectClause_measured d hd, ih]

theorem dirPhrase_ne (cy cx : ℚ) : combineDirs (verticalDir cy) (horizontalDir cx) ≠ "" := by
  unfold verticalDir horizontalDir
  split_ifs <;> decide

/-- C2 (amended): for every non-empty filtered list, whenever a nonzero
measured distance is provided, no per-object about-clause appears: the
output is exactly the leading sentence followed by name-and-direction
clauses; and every object whose first instance has a bounding box keeps a
nonempty direction phrase. -/
theorem C2_measured_suppresses (objs : List Label) (d : ℚ) (l : Label) (inst : RekInstance)
    (rest : List RekInstance) (box : BoundingBox)
    (hd : d ≠ 0) (hne : objs ≠ [])
    (hi : l.Instances = some (inst :: rest)) (hb : inst.BoundingBox = some box) :
    synthesize objs (some d) =
      leadingClause (some d) ++ dirClausesFrom 0 (objs.take 3) ++ "." ∧
    (objDistanceAndDirection l).2 ≠ "" := by
  constructor
  · rw [synthesize, if_pos (List.length_pos.mpr hne), clausesFrom_measured d hd]
  · obtain ⟨nm, cf, ins⟩ := l
    obtain ⟨bb⟩ := inst
    have hi2 : ins = some (RekInstance.mk bb :: rest) := hi
    have hb2 : bb = some box := hb
    subst hi2
    subst hb2
    simp only [objDistanceAndDirection]
    exact dirPhrase_ne _ _

/-- C2 witness: the suppression theorem applied to the chair scenario at
measured distance 1. -/
theorem C2_witness :
    ((1 : ℚ) ≠ 0 ∧ ([chairLabel] : List Label) ≠ [] ∧
      chairLabel.Instances = some ({ BoundingBox := some chairBox } :: []) ∧
      ({ BoundingBox := some chairBox } : RekInstance).BoundingBox = some chairBox) ∧
    (synthesize [chairLabel] (some 1) =
        leadingClause (some 1) ++ dirClausesFrom 0 ([chairLabel].take 3) ++ "." ∧
      (objDistanceAndDirection chairLabel).2 ≠ "") :=
  ⟨⟨by norm_num, by simp, rfl, rfl⟩,
    C2_measured_suppresses [chairLabel] 1 chairLabel { BoundingBox := some chairBox } [] chairBox
      (by norm_num) (by simp) rfl rfl⟩

/-- C3: synthesis on an empty filtered list returns exactly the fixed
fallback sentence, whatever the optional measured distance is. -/
theorem C3_empty_fallback (rd : Option ℚ) : synthesize [] rd = fallbackText := rfl

/-- C4: the area-to-bucket map is monotonic: a smaller box area never gets
a nearer distance phrase than a larger one. -/
theorem C4_bucket_monotone (a1 a2 : ℚ) (h : a1 < a2) :
    distRank (estimateDistance a2) ≤ distRank (estimateDistance a1) := by
  unfold estimateDistance
  split_ifs <;> first | decide | (exfalso; linarith)

/-- C4 witness: the monotonicity theorem at areas 0.01 and 0.5. -/
theorem C4_witness :
    ((1 : ℚ)/100 < 1/2) ∧
      distRank (estimateDistance (1/2)) ≤ distRank (estimateDistance (1/100)) :=
  ⟨by norm_num, C4_bucket_monotone (1/100) (1/2) (by norm_num)⟩

/-- C5: a label whose lowercased name contains a denylisted substring is
rejected by the filter predicate and never appears in physicalObjects,
regardless of its confidence or instance count. -/
theorem C5_denylist_excluded (l : Label) (objs : List Label)
    (h : ∃ cat ∈ excludeCategories, jsIncludes (filterName l) cat = true) :
    keepLabel l = false ∧ l ∉ physicalObjects objs := by
  obtain ⟨cat, hmem, hinc⟩ := h
  have hany : excludeCategories.any (fun c => jsIncludes (filterName l) c) = true :=
    List.any_eq_true.mpr ⟨cat, hmem, hinc⟩
  have hk : keepLabel l = false := by
    simp [keepLabel, hany]
  refine ⟨hk, fun hmem2 => ?_⟩
  have hk2 := (List.mem_filter.mp hmem2).2
  rw [hk] at hk2
  exact Bool.false_ne_true hk2

/-- C5 witness: the exclusion theorem applied to the interior design label
with confidence 95 and one instance. -/
theorem C5_witness :
    (∃ cat ∈ excludeCategories, jsIncludes (filterName interiorLabel) cat = true) ∧
      (keepLabel interiorLabel = false ∧
        interiorLabel ∉ physicalObjects [interiorLabel, chairLabel]) :=
  ⟨⟨"interior design", by decide, by decide⟩,
    C5_denylist_excluded interiorLabel [interiorLabel, chairLabel]
      ⟨"interior design", by decide, by decide⟩⟩

theorem keepLabel_instances (l : Label) (hk : keepLabel l = true) :
    l.Instances ≠ none ∧ l.Instances ≠ some [] := by
  obtain ⟨nm, cf, ins⟩ := l
  constructor
  · intro hn
    have hn2 : ins = none := hn
    subst hn2
    simp [keepLabel] at hk
  · intro hn
    have hn2 : ins = some [] := hn
    subst hn2
    simp [keepLabel] at hk

/-- C6: the filtered-and-capped list holds at most 3 labels, every member
has a nonempty Instances array, and the survivors keep the relative order
of the input list. -/
theorem C6_filter_cap (objs : List Label) (l : Label) (h : l ∈ topObjects objs) :
    (topObjects objs).length ≤ 3 ∧ l.Instances ≠ none ∧ l.Instances ≠ some [] ∧
      List.Sublist (topObjects objs) objs := by
  have hmemf : l ∈ physicalObjects objs := by
    unfold topObjects at h
    exact (List.take_sublist 3 (physicalObjects objs)).subset h
  have hk : keepLabel l = true := (List.mem_filter.mp hmemf).2
  have hinst := keepLabel_instances l hk
  refine ⟨?_, hinst.1, hinst.2, ?_⟩
  · unfold topObjects
    rw [List.length_take]
    exact min_le_left _ _
  · unfold topObjects physicalObjects
    exact (List.take_sublist _ _).trans (List.filter_sublist _)

/-- C6 witness: the cap theorem applied to the singleton chair input. -/
theorem C6_witness :
    chairLabel ∈ topObjects [chairLabel] ∧
      ((topObjects [chairLabel]).length ≤ 3 ∧ chairLabel.Instances ≠ none ∧
        chairLabel.Instances ≠ some [] ∧ List.Sublist (topObjects [chairLabel]) [chairLabel]) := by
  have htop : topObjects [chairLabel] = [chairLabel] := by
    simp [topObjects, physicalObjects, List.filter_cons, keepLabel_chair]
  have hmem : chairLabel ∈ topObjects [chairLabel] := by
    rw [htop]
    exact List.mem_singleton.mpr rfl
  exact ⟨hmem, C6_filter_cap [chairLabel] chairLabel hmem⟩

/-- C7: the direction estimator of the code coincides with the direction
estimator written from the words of the specification; the two concrete
corner cases hold; and the code computes it from the center of the first
bounding box, left plus half width and top plus half height. -/
theorem C7_direction (cx cy lft t w h : ℚ) (nm : Option String) (cf : Option ℚ)
    (rest : List RekInstance) :
    combineDirs (verticalDir cy) (horizontalDir cx) = specDirection cx cy ∧
      specDirection (1/10) (1/10) = "above and on your left" ∧
      specDirection (9/10) (9/10) = "below and on your right" ∧
      (objDistanceAndDirection
          (Label.mk nm cf
            (some (RekInstance.mk
              (some (BoundingBox.mk (some w) (some h) (some lft) (some t))) :: rest)))).2 =
        combineDirs (verticalDir (t + h / 2)) (horizontalDir (lft + w / 2)) := by
  have hgen : ∀ a b : ℚ, combineDirs (verticalDir b) (horizontalDir a) = specDirection a b := by
    intro a b
    unfold specDirection verticalDir horizontalDir
    split_ifs <;> decide
  refine ⟨hgen cx cy, ?_, ?_, rfl⟩
  · rw [← hgen]
    have hv : verticalDir ((1 : ℚ)/10) = "above" := by norm_num [verticalDir]
    have hh : horizontalDir ((1 : ℚ)/10) = "on your left" := by norm_num [horizontalDir]
    rw [hv, hh]
    decide
  · rw [← hgen]
    have hv : verticalDir ((9 : ℚ)/10) = "below" := by norm_num [verticalDir]
    have hh : horizontalDir ((9 : ℚ)/10) = "on your right" := by norm_num [horizontalDir]
    rw [hv, hh]
    decide

/-- C8: synthesis is a pure function of the filtered objects and the
optional measured distance: two runs on the same pair give the same
string, and the cycle description does not depend on the analyzing flag,
the previous result text or the session flag of the component state. -/
theorem C8_pure (st1 st2 : AppState) (sr : Option ℚ) (ls : List Label)
    (objs : List Label) (rd : Option ℚ) (o1 o2 : String)
    (h : st1.hasLiDAR = st2.hasLiDAR) (h1 : o1 = synthesize objs rd) (h2 : o2 = synthesize objs rd) :
    o1 = o2 ∧ describeFromState st1 sr ls = describeFromState st2 sr ls := by
  subst h1
  subst h2
  refine ⟨rfl, ?_⟩
  unfold describeFromState takePictureDescription
  rw [h]

/-- C8 witness: two states that differ in every field but the LiDAR flag
produce the same description. -/
theorem C8_witness :
    (AppState.mk false ("") true false).hasLiDAR = (AppState.mk true ("busy") true true).hasLiDAR ∧
      (synthesize [] none = synthesize [] none ∧
        describeFromState (AppState.mk false ("") true false) none [] =
          describeFromState (AppState.mk true ("busy") true true) none []) :=
  ⟨rfl,
    C8_pure (AppState.mk false ("") true false) (AppState.mk true ("busy") true true)
      none [] [] none (synthesize [] none) (synthesize [] none) rfl rfl rfl⟩

/-- C9: when the capture collaborator reports a user cancellation, the
cycle ends with the result text cleared and the busy flag reset, emitting
only the pre-capture speech: no upload, no analysis, no spoken or
displayed error. -/
theorem C9_cancel (st : AppState) (cam : Bool) (up : Except String Unit)
    (an : Except String (List Label)) (sr : Option ℚ)
    (h : st.analyzing = false) (hcam : cam = true) :
    takePictureModel st cam CaptureOutcome.cancelledErr up an sr =
      ({ st with result := "", analyzing := false }, [Event.speak ("Opening camera")]) ∧
      Event.upload ∉ (takePictureModel st cam CaptureOutcome.cancelledErr up an sr).2 ∧
      Event.analyze ∉ (takePictureModel st cam CaptureOutcome.cancelledErr up an sr).2 := by
  have heq : takePictureModel st cam CaptureOutcome.cancelledErr up an sr =
      ({ st with result := "", analyzing := false }, [Event.speak ("Opening camera")]) := by
    unfold takePictureModel
    rw [h, hcam]
    simp
  refine ⟨heq, ?_, ?_⟩ <;> rw [heq] <;> simp

/-- C9 witness: the cancellation theorem at an idle state. -/
theorem C9_witness :
    (AppState.mk false ("") false false).analyzing = false ∧ (true = true) ∧
      (takePictureModel (AppState.mk false ("") false false) true CaptureOutcome.cancelledErr
          (Except.ok ()) (Except.ok []) none =
        ({ AppState.mk false ("") false false with result := "", analyzing := false },
          [Event.speak ("Opening camera")]) ∧
        Event.upload ∉ (takePictureModel (AppState.mk false ("") false false) true
          CaptureOutcome.cancelledErr (Except.ok ()) (Except.ok []) none).2 ∧
        Event.analyze ∉ (takePictureModel (AppState.mk false ("") false false) true
          CaptureOutcome.cancelledErr (Except.ok ()) (Except.ok []) none).2) :=
  ⟨rfl, rfl,
    C9_cancel (AppState.mk false ("") false false) true (Except.ok ()) (Except.ok []) none rfl rfl⟩

/-- C10: only the first element of the Instances sequence matters: the
clause for a label is unchanged under any replacement of the tail, and a
label whose first instance has no bounding box is narrated with neither a
distance nor a direction segment. -/
theorem C10_first_instance_only (nm : Option String) (cf : Option ℚ) (inst : RekInstance)
    (rest1 rest2 : List RekInstance) (rd : Option ℚ) (idx : Nat) :
    objectClause rd idx (Label.mk nm cf (some (inst :: rest1))) =
      objectClause rd idx (Label.mk nm cf (some (inst :: rest2))) ∧
      objectClause rd idx (Label.mk nm cf (some (RekInstance.mk none :: rest1))) =
        (if idx == 0 then
          "I see a " ++ narrationName (Label.mk nm cf (some (RekInstance.mk none :: rest1)))
         else
          ", a " ++ narrationName (Label.mk nm cf (some (RekInstance.mk none :: rest1)))) := by
  constructor
  · rfl
  · simp [objectClause, objDistanceAndDirection]
